import Mathlib

/-!
Verification of the server-side swap coordinator (package `swap`) against its
natural-language specification.  Times are modelled as integer milliseconds;
Go's zero `time.Time` is modelled as the integer `0`, so that `t.IsZero()`
becomes `t = 0`.  Users and orders are identified by natural numbers.
-/

namespace Swap

/-- Match settlement status, `order.MatchStatus` in the source.  States:
NewlyMatched, MakerSwapCast, TakerSwapCast, MakerRedeemed, MatchComplete. -/
inductive MatchStatus where
  | NewlyMatched
  | MakerSwapCast
  | TakerSwapCast
  | MakerRedeemed
  | MatchComplete
  deriving DecidableEq, Repr

/-- The `auth.NoActionStep` scoring labels used by `failMatch`. -/
inductive NoActionStep where
  | NoSwapAsMaker
  | NoSwapAsTaker
  | NoRedeemAsMaker
  | NoRedeemAsTaker
  deriving DecidableEq, Repr

/-- One of the two parties of a match. -/
inductive Party where
  | maker
  | taker
  deriving DecidableEq, Repr

/-! ## Order swap tracker (`orderSwapTracker`, source lines around 370-476)

The Go tracker keeps a map `orderMatches : map[order.OrderID]*orderSwapStat`.
Every operation reads and writes only the entry of the one order id passed to
it, so the tracker is embedded per order: the state is the order's entry,
`Option orderSwapStat`, with `none` standing for the key being absent from the
map and a returned `none` standing for `delete(s.orderMatches, oid)`. -/

/-- `orderSwapStat`: per-order swap count and flags.  `SwapCount` is a Go
`int`, hence `Int` here. -/
structure orderSwapStat where
  swapCount : Int
  offBook : Bool
  hasFailed : Bool
  deriving DecidableEq, Repr

/-- `decrementActiveSwapCount(ord, failed)`.  Returns the updated entry for the
order (`none` = deleted/absent) together with the Go function's boolean result.
An absent entry logs a warning and returns `true`.  Otherwise `HasFailed` is
or-ed with `failed`, the count is decremented, and when it reaches zero the
entry is deleted unless `HasFailed && !OffBook`; the result is
`OffBook && !HasFailed`. -/
def decrementActiveSwapCount (stat : Option orderSwapStat) (failed : Bool) :
    Option orderSwapStat × Bool :=
  match stat with
  | none => (none, true)
  | some st =>
    let hasFailed := st.hasFailed || failed
    let count := st.swapCount - 1
    if count ≠ 0 then
      (some { st with hasFailed := hasFailed, swapCount := count }, false)
    else if !hasFailed || st.offBook then
      (none, st.offBook && !hasFailed)
    else
      (some { st with hasFailed := hasFailed, swapCount := count },
        st.offBook && !hasFailed)

/-- `incActiveSwapCount(ord, offBook)`: creates the entry with count 1 if
absent; otherwise increments the count and assigns `OffBook = offBook`
(the source comment reads "should never change true to false", but the
assignment is unconditional). -/
def incActiveSwapCount (stat : Option orderSwapStat) (offBook : Bool) :
    Option orderSwapStat :=
  match stat with
  | none => some { swapCount := 1, offBook := offBook, hasFailed := false }
  | some st => some { st with swapCount := st.swapCount + 1, offBook := offBook }

/-- `canceled(ord)`: no-op on an absent entry, else sets both `OffBook` and
`HasFailed` without touching the count. -/
def canceled (stat : Option orderSwapStat) : Option orderSwapStat :=
  match stat with
  | none => none
  | some st => some { st with offBook := true, hasFailed := true }

/-- `swapSuccess(ord)` = `decrementActiveSwapCount(ord, false)`. -/
def swapSuccess (stat : Option orderSwapStat) : Option orderSwapStat × Bool :=
  decrementActiveSwapCount stat false

/-- `swapFailure(ord)` = `decrementActiveSwapCount(ord, true)` (result
discarded by the source). -/
def swapFailure (stat : Option orderSwapStat) : Option orderSwapStat :=
  (decrementActiveSwapCount stat true).1

/-- A single operation of the order-swap tracker applied to one order. -/
inductive SwapOp where
  | inc (offBook : Bool)
  | dec (failed : Bool)
  | cancel
  deriving DecidableEq, Repr

/-- Apply one tracker operation to an order's entry; the boolean is the value
returned by `decrementActiveSwapCount` (`false` for the other operations). -/
def applyOp (stat : Option orderSwapStat) : SwapOp → Option orderSwapStat × Bool
  | .inc b => (incActiveSwapCount stat b, false)
  | .dec f => decrementActiveSwapCount stat f
  | .cancel => (canceled stat, false)

/-- Run a sequence of tracker operations on one order, counting how many
`decrementActiveSwapCount` calls returned `true`. -/
def runOps (stat : Option orderSwapStat) : List SwapOp → Option orderSwapStat × Nat
  | [] => (stat, 0)
  | op :: rest =>
    let r := applyOp stat op
    let rec' := runOps r.1 rest
    (rec'.1, (if r.2 then 1 else 0) + rec'.2)

/-- Number of `true` returns of `decrementActiveSwapCount` over a sequence. -/
def decTrueCount (stat : Option orderSwapStat) (ops : List SwapOp) : Nat :=
  (runOps stat ops).2

/-! ## Match trackers and failure ascription -/

/-- The fields of a `matchTracker` (with its embedded `order.Match` and the two
`swapStatus` records) that the coordinator logic reads.  `time` is the match's
first-seen time, `epochEnd` is `Epoch.End()`, `matchTime` is the epoch-derived
match time used for lock times.  Swap statuses are flattened: for each party
the swap asset id, the contract first-sighting time (`swapTime`), the
confirmation time (`swapConfirmed`, zero until reached) and the redemption
first-sighting time (`redeemTime`). -/
structure MatchRec where
  status : MatchStatus
  time : Int
  matchTime : Int
  epochEnd : Int
  quantity : Nat
  rate : Nat
  baseAsset : Nat
  quoteAsset : Nat
  makerSell : Bool
  makerUser : Nat
  takerUser : Nat
  feeRateBase : Nat
  feeRateQuote : Nat
  makerSwapAsset : Nat
  takerSwapAsset : Nat
  makerSwapTime : Int
  makerSwapConfirmed : Int
  makerRedeemTime : Int
  takerSwapTime : Int
  takerSwapConfirmed : Int
  takerRedeemTime : Int
  deriving DecidableEq, Repr

/-- What `failMatch` does to a match: the fault ascription from the status
switch, plus which party is penalized (`Inaction`) and which party's order is
decremented with which `failed` flag. -/
structure FailMatchOut where
  makerFault : Bool
  misstep : NoActionStep
  refTime : Int
  atFault : Party
  counterparty : Party
  /-- the at-fault order gets `swapFailure`, i.e. `dec` with `failed = true` -/
  decFailedParty : Party
  /-- the counterparty order gets `swapSuccess`, i.e. `dec` with `failed = false` -/
  decSuccessParty : Party
  /-- the user charged with the `Inaction` penalty -/
  inactionParty : Party
  deriving DecidableEq, Repr

/-- `failMatch` (source lines 1223-1296): from the match status determine
maker/taker fault, the `auth.NoActionStep` label and the DB reference time;
the default case logs an error and returns without acting (`none` here).  The
at-fault order then receives `swapFailure` and the `Inaction` penalty while
the other order receives `swapSuccess`. -/
def failMatch (m : MatchRec) : Option FailMatchOut :=
  let pick : Bool → NoActionStep → Int → FailMatchOut := fun makerFault misstep refTime =>
    let atFault := if makerFault then Party.maker else Party.taker
    let other := if makerFault then Party.taker else Party.maker
    { makerFault := makerFault
      misstep := misstep
      refTime := refTime
      atFault := atFault
      counterparty := other
      decFailedParty := atFault
      decSuccessParty := other
      inactionParty := atFault }
  match m.status with
  | .NewlyMatched => some (pick true .NoSwapAsMaker m.epochEnd)
  | .MakerSwapCast => some (pick false .NoSwapAsTaker m.makerSwapTime)
  | .TakerSwapCast => some (pick true .NoRedeemAsMaker m.takerSwapTime)
  | .MakerRedeemed => some (pick false .NoRedeemAsTaker m.makerRedeemTime)
  | .MatchComplete => none

/-! ## Inaction sweeps (source lines 1300-1424) -/

/-- The `tooOld` closure of `checkInactionEventBased`:
`now.Sub(evt) >= s.bTimeout`, with no zero-time guard. -/
def eventBasedTooOld (now bTimeout evt : Int) : Bool :=
  now - evt ≥ bTimeout

/-- The `tooOld` closure of `checkInactionBlockBased`:
`!evt.IsZero() && now.Sub(evt) >= s.bTimeout`. -/
def blockBasedTooOld (now bTimeout evt : Int) : Bool :=
  evt ≠ 0 && now - evt ≥ bTimeout

/-- Per-match revocation decision of `checkInactionEventBased`: a match in
`NewlyMatched` is failed when `match.time` is too old, one in `MakerRedeemed`
when the maker's `redeemTime` is too old; other statuses are untouched. -/
def eventBasedRevokes (now bTimeout : Int) (m : MatchRec) : Bool :=
  match m.status with
  | .NewlyMatched => eventBasedTooOld now bTimeout m.time
  | .MakerRedeemed => eventBasedTooOld now bTimeout m.makerRedeemTime
  | _ => false

/-- Per-match revocation decision of `checkInactionBlockBased assetID`: a match
is skipped unless one of its swap assets is `assetID`; then a match in
`MakerSwapCast` is failed when the maker's `swapConfirmed` time is too old and
one in `TakerSwapCast` when the taker's `swapConfirmed` time is too old. -/
def blockBasedRevokes (now bTimeout : Int) (assetID : Nat) (m : MatchRec) : Bool :=
  if m.makerSwapAsset ≠ assetID ∧ m.takerSwapAsset ≠ assetID then false
  else
    match m.status with
    | .MakerSwapCast => blockBasedTooOld now bTimeout m.makerSwapConfirmed
    | .TakerSwapCast => blockBasedTooOld now bTimeout m.takerSwapConfirmed
    | _ => false

/-- `checkInactionEventBased`: with a failing DB (`LastErr` non-nil) nothing is
revoked; otherwise every match in the registry is checked and the failed ones
are deleted.  Returns the list of revoked (deleted) matches. -/
def checkInactionEventBased (dbOk : Bool) (now bTimeout : Int)
    (ms : List MatchRec) : List MatchRec :=
  if !dbOk then [] else ms.filter (eventBasedRevokes now bTimeout)

/-- `checkInactionBlockBased`: with a failing DB nothing is revoked; otherwise
every match involving the asset is checked and the failed ones are deleted.
Returns the list of revoked (deleted) matches. -/
def checkInactionBlockBased (dbOk : Bool) (now bTimeout : Int) (assetID : Nat)
    (ms : List MatchRec) : List MatchRec :=
  if !dbOk then [] else ms.filter (blockBasedRevokes now bTimeout assetID)

/-! ## Step resolution (`step`, source lines 1459-1578) -/

/-- Wire/processing error codes used by the embedded handlers
(`msgjson` codes). -/
inductive ErrCode where
  | RPCUnknownMatch
  | RPCParseError
  | SignatureError
  | SettlementSequenceError
  | ContractError
  | RedemptionError
  | TransactionUndiscovered
  | UnknownMarketError
  | TryAgainLaterError
  deriving DecidableEq, Repr

/-- Modelled from the spec: `matcher.BaseToQuote(rate, base)` converts a base
amount to a quote amount "using the market's rate encoding"
(`quantity * rate` scaled by the rate-encoding factor of 1e8).  The matcher
package is not among the provided source files. -/
def BaseToQuote (rate quantity : Nat) : Nat :=
  rate * quantity / 100000000

/-- The outcome of `step`: the acting party, the chain the step happens on,
the next status, the two swap assets and the expected contract value. -/
structure StepInfo where
  actorIsMaker : Bool
  actorUser : Nat
  counterpartyUser : Nat
  isBaseAsset : Bool
  step : MatchStatus
  nextStep : MatchStatus
  actorSwapAsset : Nat
  counterpartySwapAsset : Nat
  checkVal : Nat
  deriving DecidableEq, Repr

/-- `step(user, matchID)`: looks the match up in the registry (`none` input =
not found), switches on the status to pick the actor, the next status and
`isBaseAsset`, rejects an unexpected status or a user that is not the acting
party, and computes the swap assets and `checkVal` from `isBaseAsset`. -/
def step (lookup : Option MatchRec) (user : Nat) : Except ErrCode StepInfo :=
  match lookup with
  | none => .error .RPCUnknownMatch
  | some m =>
    let result : Bool × Bool × MatchStatus → Except ErrCode StepInfo :=
      fun info =>
        let actorIsMaker := info.1
        let isBaseAsset := info.2.1
        let nextStep := info.2.2
        let actorUser := if actorIsMaker then m.makerUser else m.takerUser
        let cpUser := if actorIsMaker then m.takerUser else m.makerUser
        if actorUser ≠ user then
          .error .SettlementSequenceError
        else
          let actorSwapAsset := if isBaseAsset then m.baseAsset else m.quoteAsset
          let cpSwapAsset := if isBaseAsset then m.quoteAsset else m.baseAsset
          let checkVal :=
            if isBaseAsset then m.quantity else BaseToQuote m.rate m.quantity
          .ok { actorIsMaker := actorIsMaker
                actorUser := actorUser
                counterpartyUser := cpUser
                isBaseAsset := isBaseAsset
                step := m.status
                nextStep := nextStep
                actorSwapAsset := actorSwapAsset
                counterpartySwapAsset := cpSwapAsset
                checkVal := checkVal }
    match m.status with
    | .NewlyMatched => result (true, m.makerSell, .MakerSwapCast)
    | .TakerSwapCast => result (true, !m.makerSell, .MakerRedeemed)
    | .MakerSwapCast => result (false, !m.makerSell, .TakerSwapCast)
    | .MakerRedeemed => result (false, m.makerSell, .MatchComplete)
    | .MatchComplete => .error .SettlementSequenceError

/-! ## Init and redeem processing (source lines 1681-2013)

The asset backend and the database are external collaborators; their answers
enter the embedding as oracle arguments (a lookup outcome, success flags).
The control flow and all validation logic are translated from the source.  The
return values `wait.TryAgain` / `wait.DontTryAgain` of the coin-waiter try
function are modelled by `WaiterAct`. -/

/-- Return value of a coin-waiter try function (`wait.TryAgain` = keep
retrying, `wait.DontTryAgain` = done). -/
inductive WaiterAct where
  | TryAgain
  | DontTryAgain
  deriving DecidableEq, Repr

/-- What `chain.Contract(coinID, contract)` reported for an init message. -/
structure ContractInfo where
  feeRate : Nat
  swapAddress : Nat
  value : Nat
  lockTime : Int
  deriving DecidableEq, Repr

/-- Outcome of the backend contract lookup: `asset.CoinNotFoundError`, any
other error, or the resolved contract. -/
inductive ContractLookup where
  | coinNotFound
  | lookupErr
  | found (c : ContractInfo)
  deriving DecidableEq, Repr

/-- Outcome of the backend redemption lookup in `processRedeem`. -/
inductive RedemptionLookup where
  | coinNotFound
  | lookupErr
  | found
  deriving DecidableEq, Repr

/-- `encode.DropMilliseconds`: truncate a millisecond timestamp to whole
seconds. -/
def dropMilliseconds (t : Int) : Int :=
  t / 1000 * 1000

/-- Everything `processInit` did: the (possibly updated) match fields, whether
the registry still holds the match, the responses sent to the actor, the
waiter return value, and whether an `audit` request went to the
counterparty. -/
structure InitOut where
  matchRec : MatchRec
  inRegistry : Bool
  respSuccess : Bool
  respError : Option ErrCode
  act : WaiterAct
  auditRequested : Bool
  deriving DecidableEq, Repr

/-- `processInit` (source lines 1681-1831): resolve the contract (retry on
coin-not-found, `ContractError` on any other backend error), then validate fee
rate, recipient, value and lock time (each failure responds `ContractError`
and stops the waiter), persist the contract (failure responds
`UnknownMarketError` and retries), re-check under the registry lock that the
match was not revoked (if it was, respond `ContractError` and stop), then set
the actor's `swapTime`, advance the match status, respond with a signed
acknowledgement and send the `audit` request to the counterparty. -/
def processInit (si : StepInfo) (m : MatchRec) (inRegistry : Bool)
    (lookup : ContractLookup) (cpSwapAddress : Nat)
    (lockTimeMaker lockTimeTaker : Int) (now : Int) (storageOk : Bool) :
    InitOut :=
  let unchanged : Option ErrCode → WaiterAct → InitOut := fun e act =>
    { matchRec := m, inRegistry := inRegistry, respSuccess := false,
      respError := e, act := act, auditRequested := false }
  match lookup with
  | .coinNotFound => unchanged none .TryAgain
  | .lookupErr => unchanged (some .ContractError) .DontTryAgain
  | .found c =>
    let reqFeeRate := if si.isBaseAsset then m.feeRateBase else m.feeRateQuote
    if c.feeRate < reqFeeRate then
      unchanged (some .ContractError) .DontTryAgain
    else if c.swapAddress ≠ cpSwapAddress then
      unchanged (some .ContractError) .DontTryAgain
    else if c.value ≠ si.checkVal then
      unchanged (some .ContractError) .DontTryAgain
    else
      let reqLockTime := dropMilliseconds
        (m.matchTime + (if si.actorIsMaker then lockTimeMaker else lockTimeTaker))
      if c.lockTime < reqLockTime then
        unchanged (some .ContractError) .DontTryAgain
      else if !storageOk then
        unchanged (some .UnknownMarketError) .TryAgain
      else if !inRegistry then
        unchanged (some .ContractError) .DontTryAgain
      else
        let m1 := if si.actorIsMaker then { m with makerSwapTime := now }
          else { m with takerSwapTime := now }
        { matchRec := { m1 with status := si.nextStep }, inRegistry := inRegistry,
          respSuccess := true, respError := none, act := .DontTryAgain,
          auditRequested := true }

/-- Everything `processRedeem` did: updated match fields, registry membership
(`false` after the final-state deletion), responses, waiter return value,
whether `SwapSuccess` was credited, which party's order had its active-swap
counter decremented, the updated tracker entry of that order, whether the
order was recorded as successfully completed, and whether a `redemption`
request went to the taker. -/
structure RedeemOut where
  matchRec : MatchRec
  inRegistry : Bool
  respSuccess : Bool
  respError : Option ErrCode
  act : WaiterAct
  swapSuccessScored : Bool
  decMakerOrder : Bool
  decTakerOrder : Bool
  actorOrderEntry : Option orderSwapStat
  recordedCompleted : Bool
  redemptionReqSent : Bool
  deriving DecidableEq, Repr

/-- `processRedeem` (source lines 1835-2013): validate the revealed secret
against the counterparty's contract (failure responds `UnknownMarketError` and
stops the waiter), resolve the redemption (retry on coin-not-found,
`RedemptionError` on other errors), re-check that the match was not revoked
(`RedemptionError` if it was), then set the actor's `redeemTime` and advance
the status; on `MatchComplete` delete the tracker from the registry; credit
`SwapSuccess` (for a self-match only on `MatchComplete`); persist; respond
with a signed acknowledgement; decrement the acting party's order via
`swapSuccess` and, if that made the order complete, record the completion; for
a maker redeem finally send the `redemption` request to the taker. -/
def processRedeem (si : StepInfo) (m : MatchRec) (inRegistry : Bool)
    (secretValid : Bool) (lookup : RedemptionLookup) (now : Int)
    (actorOrderEntry : Option orderSwapStat)
    (setCompleteTimeGeneralFailure : Bool) : RedeemOut :=
  let unchanged : Option ErrCode → WaiterAct → RedeemOut := fun e act =>
    { matchRec := m, inRegistry := inRegistry, respSuccess := false,
      respError := e, act := act, swapSuccessScored := false,
      decMakerOrder := false, decTakerOrder := false,
      actorOrderEntry := actorOrderEntry, recordedCompleted := false,
      redemptionReqSent := false }
  if !secretValid then
    unchanged (some .UnknownMarketError) .DontTryAgain
  else
    match lookup with
    | .coinNotFound => unchanged none .TryAgain
    | .lookupErr => unchanged (some .RedemptionError) .DontTryAgain
    | .found =>
      if !inRegistry then
        unchanged (some .RedemptionError) .DontTryAgain
      else
        let newStatus := si.nextStep
        let m1 := if si.actorIsMaker then { m with makerRedeemTime := now }
          else { m with takerRedeemTime := now }
        let m2 := { m1 with status := newStatus }
        let stillInRegistry := !(newStatus = MatchStatus.MatchComplete)
        let scored := si.actorUser ≠ si.counterpartyUser ∨
          newStatus = MatchStatus.MatchComplete
        let decResult := swapSuccess actorOrderEntry
        let generalFailureStop := decResult.2 && setCompleteTimeGeneralFailure
        { matchRec := m2
          inRegistry := stillInRegistry
          respSuccess := true
          respError := if generalFailureStop then some .UnknownMarketError else none
          act := .DontTryAgain
          swapSuccessScored := decide scored
          decMakerOrder := si.actorIsMaker
          decTakerOrder := !si.actorIsMaker
          actorOrderEntry := decResult.1
          recordedCompleted := decResult.2
          redemptionReqSent := si.actorIsMaker && !generalFailureStop }

/-! ## handleInit (source lines 2016-2139) -/

/-- Oracle results of the purely external checks done by `handleInit` before
any swap logic: message parsing, signature verification, match id length, and
the backend's `ValidateCoinID` / `ValidateContract`. -/
structure HandlerEnv where
  stop : Bool
  parseOk : Bool
  authOk : Bool
  matchIDOk : Bool
  coinIDOk : Bool
  contractOk : Bool
  deriving DecidableEq, Repr

/-- `handleInit`: after the shutdown fence, parsing, signature and match-id
checks, resolve the step via `step`, require status `NewlyMatched` or
`MakerSwapCast`, validate the coin id and contract script, then register a
coin waiter whose expiry starts from `now + txWaitExpiration` and, when the
last relevant event time (match arrival for the maker, maker swap-confirmed
time for the taker) is non-zero, is capped at that event time plus the
broadcast timeout.  A zero event time only logs a warning.  Returns the
registered waiter's expiry, or the error sent to the client. -/
def handleInit (lookup : Option MatchRec) (user : Nat) (env : HandlerEnv)
    (now txWaitExpiration bTimeout : Int) : Except ErrCode Int :=
  if env.stop then .error .TryAgainLaterError
  else if !env.parseOk then .error .RPCParseError
  else if !env.authOk then .error .SignatureError
  else if !env.matchIDOk then .error .RPCParseError
  else
    match step lookup user, lookup with
    | .error e, _ => .error e
    | .ok _, none => .error .RPCUnknownMatch
    | .ok si, some m =>
      match si.step with
      | .NewlyMatched | .MakerSwapCast =>
        if !env.coinIDOk then .error .ContractError
        else if !env.contractOk then .error .ContractError
        else
          let lastEvent := if si.step = MatchStatus.MakerSwapCast then
            m.makerSwapConfirmed else m.time
          let expireTime := now + txWaitExpiration
          let expireTime := if lastEvent = 0 then expireTime
            else if expireTime > lastEvent + bTimeout then lastEvent + bTimeout
            else expireTime
          .ok expireTime
      | _ => .error .SettlementSequenceError

/-! ## NewSwapper (source lines 563-681) -/

/-- Per-asset configuration visible to `NewSwapper`. -/
structure AssetConf where
  assetID : Nat
  symbol : String
  maxFeeRate : Nat
  deriving DecidableEq, Repr

/-- The `Config` passed to `NewSwapper`.  Filesystem and database answers
(directory stat, state-file discovery, hashes, load and restore results) are
oracle booleans standing for the corresponding call outcomes. -/
structure SwapConfig where
  dataDirExists : Bool
  dataDirIsDir : Bool
  assets : List AssetConf
  broadcastTimeout : Int
  lockTimeTaker : Int
  lockTimeMaker : Int
  ignoreState : Bool
  statePathGiven : Bool
  statePathLoadOk : Bool
  latestDirReadOk : Bool
  latestFileFound : Bool
  getHashOk : Bool
  dbHashNonempty : Bool
  fileHashOk : Bool
  hashesMatch : Bool
  loadLatestOk : Bool
  restoreOk : Bool
  deriving DecidableEq, Repr

/-- Observable side effects of `NewSwapper`: loading a state file, restoring
state into the registry, and registering a message route with the auth
manager. -/
inductive SwapEffect where
  | loadStateFile
  | restoreState
  | registerRoute (route : String)
  deriving DecidableEq, Repr

/-- The constructed Swapper fields relevant here. -/
structure SwapperModel where
  bTimeout : Int
  lockTimeTaker : Int
  lockTimeMaker : Int
  deriving DecidableEq, Repr

/-- Result of `NewSwapper`: the constructor's return value, the final value of
the package-level `txWaitExpiration` variable, and the side effects
performed. -/
structure NewSwapperOut where
  result : Except String SwapperModel
  txWaitExpiration : Int
  effects : List SwapEffect
  deriving Repr

/-- The state-loading block of `NewSwapper`: an explicit state path is loaded
directly; otherwise, unless suppressed, the newest state file is located and
loaded only when the database-recorded hash is non-empty and matches the
file's hash.  Returns whether a state was loaded, or the constructor
error. -/
def loadStatePhase (cfg : SwapConfig) : Except String Bool × List SwapEffect :=
  if cfg.statePathGiven then
    if cfg.statePathLoadOk then (.ok true, [.loadStateFile])
    else (.error "failed to load specified state file", [.loadStateFile])
  else if !cfg.ignoreState then
    if !cfg.latestDirReadOk then (.error "unable to read datadir", [])
    else if cfg.latestFileFound then
      if !cfg.getHashOk then (.error "error getting stateHash", [])
      else if cfg.dbHashNonempty then
        if !cfg.fileHashOk then (.error "FileHash error", [])
        else if !cfg.hashesMatch then
          (.error "latest swap file failed consistency check", [])
        else if cfg.loadLatestOk then (.ok true, [.loadStateFile])
        else (.error "failed to load swap state file", [.loadStateFile])
      else (.ok false, [])
    else (.ok false, [])
  else (.ok false, [])

/-- `NewSwapper` (source lines 563-681): verify the data directory, reject any
asset with `MaxFeeRate == 0`, build the Swapper, clamp the package-level
`txWaitExpiration` to the broadcast timeout, load and restore saved state, and
finally register the `init` and `redeem` routes. -/
def NewSwapper (cfg : SwapConfig) (txWaitExpiration0 : Int) : NewSwapperOut :=
  if !cfg.dataDirExists then
    { result := .error "data folder does not exist",
      txWaitExpiration := txWaitExpiration0, effects := [] }
  else if !cfg.dataDirIsDir then
    { result := .error "path is not a directory",
      txWaitExpiration := txWaitExpiration0, effects := [] }
  else if cfg.assets.any (fun a => a.maxFeeRate = 0) then
    { result := .error "max fee rate of 0 is invalid",
      txWaitExpiration := txWaitExpiration0, effects := [] }
  else
    let txw := if txWaitExpiration0 > cfg.broadcastTimeout then
      cfg.broadcastTimeout else txWaitExpiration0
    match loadStatePhase cfg with
    | (.error e, effs) =>
      { result := .error e, txWaitExpiration := txw, effects := effs }
    | (.ok loaded, effs) =>
      if loaded && !cfg.restoreOk then
        { result := .error "restore state error", txWaitExpiration := txw,
          effects := effs ++ [.restoreState] }
      else
        let effs1 := if loaded then effs ++ [SwapEffect.restoreState] else effs
        { result := .ok { bTimeout := cfg.broadcastTimeout,
                          lockTimeTaker := cfg.lockTimeTaker,
                          lockTimeMaker := cfg.lockTimeMaker },
          txWaitExpiration := txw,
          effects := effs1 ++ [.registerRoute "init", .registerRoute "redeem"] }

/-! ## Sample data used by witnesses and counterexamples -/

/-- A concrete match used to instantiate universally quantified theorems. -/
def sampleMatch : MatchRec :=
  { status := .NewlyMatched, time := 1000, matchTime := 1000, epochEnd := 900,
    quantity := 5, rate := 2, baseAsset := 42, quoteAsset := 0,
    makerSell := true, makerUser := 1, takerUser := 2,
    feeRateBase := 10, feeRateQuote := 12,
    makerSwapAsset := 42, takerSwapAsset := 0,
    makerSwapTime := 1100, makerSwapConfirmed := 1200, makerRedeemTime := 1300,
    takerSwapTime := 1250, takerSwapConfirmed := 1260, takerRedeemTime := 1400 }

/-- A concrete step-resolution outcome for a taker redeem
(`MakerRedeemed` to `MatchComplete`). -/
def sampleTakerRedeemStep : StepInfo :=
  { actorIsMaker := false, actorUser := 2, counterpartyUser := 1,
    isBaseAsset := true, step := .MakerRedeemed, nextStep := .MatchComplete,
    actorSwapAsset := 42, counterpartySwapAsset := 0, checkVal := 5 }

/-- A handler environment in which every external check passes. -/
def okEnv : HandlerEnv :=
  { stop := false, parseOk := true, authOk := true, matchIDOk := true,
    coinIDOk := true, contractOk := true }

/-- A concrete match in `MakerRedeemed` whose maker redeem time is the zero
time (unobserved). -/
def zeroRedeemMatch : MatchRec :=
  { sampleMatch with
    status := MatchStatus.MakerRedeemed
    makerRedeemTime := 0 }

/-- A concrete match in `MakerSwapCast` whose swap-confirmed times are both
the zero time (unobserved). -/
def zeroConfMatch : MatchRec :=
  { sampleMatch with
    status := MatchStatus.MakerSwapCast
    makerSwapConfirmed := 0
    takerSwapConfirmed := 0 }

/-- A concrete tracked order entry: one active swap, off-book, no failure. -/
def sampleEntry : orderSwapStat :=
  { swapCount := 1, offBook := true, hasFailed := false }

/-! ## Claims -/

/-- C1: for every match revoked via `failMatch`, the at-fault party, scoring
label and reference time are exactly those of the §4.6 table —
`NewlyMatched`: maker, `NoSwapAsMaker`, epoch end; `MakerSwapCast`: taker,
`NoSwapAsTaker`, maker `swap_time`; `TakerSwapCast`: maker, `NoRedeemAsMaker`,
taker `swap_time`; `MakerRedeemed`: taker, `NoRedeemAsTaker`, maker
`redeem_time` — and the `Inaction` penalty is charged to the at-fault party
while the counterparty's order is decremented with `failed = false`. -/
theorem C1_failMatch_ascription (m : MatchRec) :
    (m.status = .NewlyMatched → failMatch m = some
      { makerFault := true, misstep := .NoSwapAsMaker, refTime := m.epochEnd,
        atFault := .maker, counterparty := .taker, decFailedParty := .maker,
        decSuccessParty := .taker, inactionParty := .maker }) ∧
    (m.status = .MakerSwapCast → failMatch m = some
      { makerFault := false, misstep := .NoSwapAsTaker, refTime := m.makerSwapTime,
        atFault := .taker, counterparty := .maker, decFailedParty := .taker,
        decSuccessParty := .maker, inactionParty := .taker }) ∧
    (m.status = .TakerSwapCast → failMatch m = some
      { makerFault := true, misstep := .NoRedeemAsMaker, refTime := m.takerSwapTime,
        atFault := .maker, counterparty := .taker, decFailedParty := .maker,
        decSuccessParty := .taker, inactionParty := .maker }) ∧
    (m.status = .MakerRedeemed → failMatch m = some
      { makerFault := false, misstep := .NoRedeemAsTaker, refTime := m.makerRedeemTime,
        atFault := .taker, counterparty := .maker, decFailedParty := .taker,
        decSuccessParty := .maker, inactionParty := .taker }) := by
  refine ⟨?_, ?_, ?_, ?_⟩ <;> intro h <;> simp [failMatch, h]

/-- Witness for C1 at four concrete matches, one per revocable status. -/
theorem C1_failMatch_ascription_witness :
    failMatch sampleMatch = some
      { makerFault := true, misstep := .NoSwapAsMaker, refTime := sampleMatch.epochEnd,
        atFault := .maker, counterparty := .taker, decFailedParty := .maker,
        decSuccessParty := .taker, inactionParty := .maker } ∧
    failMatch { sampleMatch with status := .MakerSwapCast } = some
      { makerFault := false, misstep := .NoSwapAsTaker,
        refTime := sampleMatch.makerSwapTime,
        atFault := .taker, counterparty := .maker, decFailedParty := .taker,
        decSuccessParty := .maker, inactionParty := .taker } ∧
    failMatch { sampleMatch with status := .TakerSwapCast } = some
      { makerFault := true, misstep := .NoRedeemAsMaker,
        refTime := sampleMatch.takerSwapTime,
        atFault := .maker, counterparty := .taker, decFailedParty := .maker,
        decSuccessParty := .taker, inactionParty := .maker } ∧
    failMatch { sampleMatch with status := .MakerRedeemed } = some
      { makerFault := false, misstep := .NoRedeemAsTaker,
        refTime := sampleMatch.makerRedeemTime,
        atFault := .taker, counterparty := .maker, decFailedParty := .taker,
        decSuccessParty := .maker, inactionParty := .taker } :=
  ⟨(C1_failMatch_ascription sampleMatch).1 rfl,
   (C1_failMatch_ascription { sampleMatch with status := .MakerSwapCast }).2.1 rfl,
   (C1_failMatch_ascription { sampleMatch with status := .TakerSwapCast }).2.2.1 rfl,
   (C1_failMatch_ascription { sampleMatch with status := .MakerRedeemed }).2.2.2 rfl⟩

/-- C2 counterexample: over the operation sequence
inc(offBook = true), dec(failed = false), dec(failed = false) on one order,
`decrementActiveSwapCount` returns `true` twice — the first dec empties and
deletes the entry, and a dec on an untracked order returns `true` again — so
it does not return `true` at most once per order. -/
theorem C2_counterexample :
    ¬ decTrueCount none [SwapOp.inc true, SwapOp.dec false, SwapOp.dec false] ≤ 1 := by
  decide

/-- C2 amended: a `decrementActiveSwapCount` call on an untracked order
returns `true` (so over an arbitrary operation sequence `true` can recur); a
call that finds a tracked entry returns `true` exactly when the decrement
brings the count to zero while the entry is off-book and — including this
call's `failed` flag — has not failed, and such a call deletes the entry, so
`true` is returned at most once per tracked entry. -/
theorem C2_decActive_true_conditions (st : orderSwapStat) (f : Bool) :
    decrementActiveSwapCount none f = (none, true) ∧
    ((decrementActiveSwapCount (some st) f).2 = true ↔
      (st.swapCount = 1 ∧ st.offBook = true ∧ st.hasFailed = false ∧ f = false)) ∧
    ((decrementActiveSwapCount (some st) f).2 = true →
      (decrementActiveSwapCount (some st) f).1 = none) := by
  rcases st with ⟨c, ob, hf⟩
  refine ⟨rfl, ?_, ?_⟩ <;>
    · by_cases hc : c = 1
      · subst hc
        cases ob <;> cases hf <;> cases f <;> simp [decrementActiveSwapCount]
      · have hne : c - 1 ≠ 0 := by omega
        simp [decrementActiveSwapCount, hne, hc]

/-- Witness for C2 at the entry with count 1, off-book and not failed. -/
theorem C2_decActive_true_conditions_witness :
    decrementActiveSwapCount none false = (none, true) ∧
    (decrementActiveSwapCount
      (some sampleEntry) false).1 = none :=
  ⟨(C2_decActive_true_conditions
      { swapCount := 1, offBook := true, hasFailed := false } false).1,
   (C2_decActive_true_conditions
      { swapCount := 1, offBook := true, hasFailed := false } false).2.2 (by decide)⟩

/-- C4 counterexample: inc(offBook = true) creates an entry with
`off_book = true`, and a subsequent inc(offBook = false) on the same order
resets it to `false` — the flag is not monotone in `true`. -/
theorem C4_counterexample :
    (incActiveSwapCount none true).map orderSwapStat.offBook = some true ∧
    (incActiveSwapCount (incActiveSwapCount none true) false).map
      orderSwapStat.offBook = some false := by
  decide

/-- C4 amended: `incActiveSwapCount` assigns `off_book` the provided value
unconditionally — it is set to `offBook` when the entry is created, and
overwritten with `offBook` (even `true` to `false`) when the entry exists;
the "never true to false" behaviour is a caller obligation the function does
not enforce. -/
theorem C4_incActive_sets_offBook (st : orderSwapStat) (b : Bool) :
    incActiveSwapCount none b =
      some { swapCount := 1, offBook := b, hasFailed := false } ∧
    incActiveSwapCount (some st) b =
      some { st with swapCount := st.swapCount + 1, offBook := b } :=
  ⟨rfl, rfl⟩

/-- Witness for C4 at a concrete off-book entry and the flag `false`: the
created entry carries `false`, and the existing entry's `true` flag is
overwritten with `false`. -/
theorem C4_incActive_sets_offBook_witness :
    incActiveSwapCount none false =
      some { swapCount := 1, offBook := false, hasFailed := false } ∧
    incActiveSwapCount (some sampleEntry) false =
      some { sampleEntry with
              swapCount := sampleEntry.swapCount + 1
              offBook := false } :=
  C4_incActive_sets_offBook sampleEntry false

/-- C3 counterexample: the event-based sweep has no zero-time guard — a match
in `MakerRedeemed` whose maker `redeemTime` is the zero time is revoked by
`checkInactionEventBased` as soon as `now - 0 ≥ bTimeout`. -/
theorem C3_counterexample :
    zeroRedeemMatch.makerRedeemTime = 0 ∧
    checkInactionEventBased true 1000000 300000 [zeroRedeemMatch] =
      [zeroRedeemMatch] := by
  decide

/-- C3 amended: only the block-based sweep guards against unobserved events —
a match whose relevant swap-confirmed time is zero (the maker's in
`MakerSwapCast`, the taker's in `TakerSwapCast`) is never revoked by
`checkInactionBlockBased` — while the event-based sweep applies the plain
`now - evt ≥ bTimeout` test, so a match in `NewlyMatched` (resp.
`MakerRedeemed`) whose first-seen time (resp. maker redeem-seen time) is the
zero time is revoked exactly when `now ≥ bTimeout`. -/
theorem C3_zero_time_guard (now bT : Int) (assetID : Nat) (m : MatchRec) :
    (m.status = .MakerSwapCast → m.makerSwapConfirmed = 0 →
      blockBasedRevokes now bT assetID m = false) ∧
    (m.status = .TakerSwapCast → m.takerSwapConfirmed = 0 →
      blockBasedRevokes now bT assetID m = false) ∧
    (m.status = .NewlyMatched → m.time = 0 →
      (eventBasedRevokes now bT m = true ↔ now ≥ bT)) ∧
    (m.status = .MakerRedeemed → m.makerRedeemTime = 0 →
      (eventBasedRevokes now bT m = true ↔ now ≥ bT)) := by
  refine ⟨fun hs h0 => ?_, fun hs h0 => ?_, fun hs h0 => ?_, fun hs h0 => ?_⟩
  · unfold blockBasedRevokes
    split
    · rfl
    · simp [hs, blockBasedTooOld, h0]
  · unfold blockBasedRevokes
    split
    · rfl
    · simp [hs, blockBasedTooOld, h0]
  · simp [eventBasedRevokes, hs, h0, eventBasedTooOld]
  · simp [eventBasedRevokes, hs, h0, eventBasedTooOld]

/-- A concrete match in `TakerSwapCast` whose maker swap is confirmed but
whose taker swap-confirmed time is still the zero time. -/
def takerZeroConfMatch : MatchRec :=
  { sampleMatch with
    status := MatchStatus.TakerSwapCast
    takerSwapConfirmed := 0 }

/-- Witness for C3 at concrete matches with a zero relevant swap-confirmed
time (maker's in `MakerSwapCast`, taker's in `TakerSwapCast` with the maker
already confirmed) and at a concrete zero-redeem-time match for the
event-based conjunct. -/
theorem C3_zero_time_guard_witness :
    blockBasedRevokes 1000000 300000 42 zeroConfMatch = false ∧
    blockBasedRevokes 1000000 300000 42 takerZeroConfMatch = false ∧
    (eventBasedRevokes 1000000 300000 zeroRedeemMatch = true ↔
      (1000000 : Int) ≥ 300000) :=
  ⟨(C3_zero_time_guard 1000000 300000 42 zeroConfMatch).1 rfl rfl,
   (C3_zero_time_guard 1000000 300000 42 takerZeroConfMatch).2.1 rfl rfl,
   (C3_zero_time_guard 1000000 300000 42 zeroRedeemMatch).2.2.2 rfl rfl⟩

/-- C5 counterexample: a redeem whose revealed secret fails validation is
answered with `UnknownMarketError`, not `ContractError` or `RedemptionError`
(the waiter does stop and the match is unchanged). -/
theorem C5_counterexample :
    processRedeem sampleTakerRedeemStep sampleMatch true false .found 2000
      (some sampleEntry) false =
      { matchRec := sampleMatch, inRegistry := true, respSuccess := false,
        respError := some .UnknownMarketError, act := .DontTryAgain,
        swapSuccessScored := false, decMakerOrder := false,
        decTakerOrder := false,
        actorOrderEntry := some { swapCount := 1, offBook := true, hasFailed := false },
        recordedCompleted := false, redemptionReqSent := false } ∧
    ErrCode.UnknownMarketError ≠ ErrCode.ContractError ∧
    ErrCode.UnknownMarketError ≠ ErrCode.RedemptionError := by
  decide

/-- C5 amended: when the referenced coin resolves but validation fails, the
waiter is terminated (`DontTryAgain`) and the match fields and registry entry
are left unchanged in every case; the response code is `ContractError` for the
init validation failures (fee rate below required, wrong recipient, wrong
value, lock time too short) and `RedemptionError` for a failed redemption
lookup, but an invalid secret in `processRedeem` is answered with
`UnknownMarketError` rather than `ContractError`/`RedemptionError`. -/
theorem C5_validation_failures (si : StepInfo) (m : MatchRec) (inRegistry : Bool) :
    (∀ (c : ContractInfo) (cpAddr : Nat) (ltm ltt now : Int) (stOk : Bool),
      (c.feeRate < (if si.isBaseAsset then m.feeRateBase else m.feeRateQuote) ∨
       c.swapAddress ≠ cpAddr ∨
       c.value ≠ si.checkVal ∨
       c.lockTime < dropMilliseconds
         (m.matchTime + if si.actorIsMaker then ltm else ltt)) →
      processInit si m inRegistry (.found c) cpAddr ltm ltt now stOk =
        { matchRec := m, inRegistry := inRegistry, respSuccess := false,
          respError := some .ContractError, act := .DontTryAgain,
          auditRequested := false }) ∧
    (∀ (lk : RedemptionLookup) (now : Int) (entry : Option orderSwapStat)
        (gf : Bool),
      processRedeem si m inRegistry false lk now entry gf =
        { matchRec := m, inRegistry := inRegistry, respSuccess := false,
          respError := some .UnknownMarketError, act := .DontTryAgain,
          swapSuccessScored := false, decMakerOrder := false,
          decTakerOrder := false, actorOrderEntry := entry,
          recordedCompleted := false, redemptionReqSent := false }) ∧
    (∀ (now : Int) (entry : Option orderSwapStat) (gf : Bool),
      processRedeem si m inRegistry true .lookupErr now entry gf =
        { matchRec := m, inRegistry := inRegistry, respSuccess := false,
          respError := some .RedemptionError, act := .DontTryAgain,
          swapSuccessScored := false, decMakerOrder := false,
          decTakerOrder := false, actorOrderEntry := entry,
          recordedCompleted := false, redemptionReqSent := false }) := by
  refine ⟨?_, ?_, ?_⟩
  case refine_2 =>
    intro lk now entry gf
    rfl
  case refine_3 =>
    intro now entry gf
    rfl
  intro c cpAddr ltm ltt now stOk hfail
  by_cases h1 : c.feeRate < (if si.isBaseAsset then m.feeRateBase else m.feeRateQuote)
  · simp [processInit, h1]
  · by_cases h2 : c.swapAddress = cpAddr
    · by_cases h3 : c.value = si.checkVal
      · by_cases h4 : c.lockTime < dropMilliseconds
          (m.matchTime + if si.actorIsMaker then ltm else ltt)
        · simp [processInit, h1, h2, h3, h4]
        · rcases hfail with h | h | h | h <;> exact absurd h (by simp [h1, h2, h3, h4])
      · simp [processInit, h1, h2, h3]
    · simp [processInit, h1, h2]

/-- Witness for C5: a contract with the wrong value is rejected with
`ContractError` and the waiter stopped, and a redeem whose redemption lookup
fails (with a valid secret) is rejected with `RedemptionError`. -/
theorem C5_validation_failures_witness :
    processInit sampleTakerRedeemStep sampleMatch true
      (.found { feeRate := 100, swapAddress := 7, value := 6, lockTime := 99999999 })
      7 5000 3000 2000 true =
      { matchRec := sampleMatch, inRegistry := true, respSuccess := false,
        respError := some .ContractError, act := .DontTryAgain,
        auditRequested := false } ∧
    processRedeem sampleTakerRedeemStep sampleMatch true true .lookupErr 2000
      (some sampleEntry) false =
      { matchRec := sampleMatch, inRegistry := true, respSuccess := false,
        respError := some .RedemptionError, act := .DontTryAgain,
        swapSuccessScored := false, decMakerOrder := false,
        decTakerOrder := false, actorOrderEntry := some sampleEntry,
        recordedCompleted := false, redemptionReqSent := false } :=
  ⟨(C5_validation_failures sampleTakerRedeemStep sampleMatch true).1
    { feeRate := 100, swapAddress := 7, value := 6, lockTime := 99999999 }
    7 5000 3000 2000 true (by decide),
   (C5_validation_failures sampleTakerRedeemStep sampleMatch true).2.2
    2000 (some sampleEntry) false⟩

/-- C6 counterexample: when the taker's redeem advances the match to
`MatchComplete`, the tracker is deleted from the registry but only the taker's
(the acting party's) order has its active-swap counter decremented — the
maker's order is not decremented in that invocation, so it is not the case
that both parties' counters are decremented then. -/
theorem C6_counterexample :
    ((processRedeem sampleTakerRedeemStep sampleMatch true true .found 2000
        (some sampleEntry)
        false).matchRec.status = .MatchComplete ∧
     (processRedeem sampleTakerRedeemStep sampleMatch true true .found 2000
        (some sampleEntry)
        false).inRegistry = false) ∧
    (processRedeem sampleTakerRedeemStep sampleMatch true true .found 2000
      (some sampleEntry)
      false).decTakerOrder = true ∧
    (processRedeem sampleTakerRedeemStep sampleMatch true true .found 2000
      (some sampleEntry)
      false).decMakerOrder = false := by
  decide

/-- C6 amended: when `processRedeem` advances a match to `MatchComplete` (the
taker's redeem), the match tracker is deleted from the registry and the acting
party's — the taker's — order has its active-swap counter decremented, with
the completion recorded and the reputation subsystem notified exactly when
that decrement makes the order successfully complete; the maker's order is
not decremented in this invocation (it was decremented when the maker
redeemed) and `SwapSuccess` is credited. -/
theorem C6_taker_redeem_completion (si : StepInfo) (m : MatchRec) (now : Int)
    (entry : Option orderSwapStat) (gf : Bool) :
    si.nextStep = .MatchComplete → si.actorIsMaker = false →
    ((processRedeem si m true true .found now entry gf).inRegistry = false ∧
     (processRedeem si m true true .found now entry gf).matchRec.status =
       .MatchComplete ∧
     (processRedeem si m true true .found now entry gf).decTakerOrder = true ∧
     (processRedeem si m true true .found now entry gf).decMakerOrder = false ∧
     (processRedeem si m true true .found now entry gf).actorOrderEntry =
       (swapSuccess entry).1 ∧
     (processRedeem si m true true .found now entry gf).recordedCompleted =
       (swapSuccess entry).2 ∧
     (processRedeem si m true true .found now entry gf).swapSuccessScored =
       true) := by
  intro hnext hmaker
  unfold processRedeem
  simp [hnext, hmaker]

/-- Witness for C6 at a concrete taker redeem whose order becomes complete. -/
theorem C6_taker_redeem_completion_witness :
    ((processRedeem sampleTakerRedeemStep sampleMatch true true .found 2000
        (some sampleEntry)
        false).inRegistry = false ∧
     (processRedeem sampleTakerRedeemStep sampleMatch true true .found 2000
        (some sampleEntry)
        false).matchRec.status = .MatchComplete ∧
     (processRedeem sampleTakerRedeemStep sampleMatch true true .found 2000
        (some sampleEntry)
        false).decTakerOrder = true ∧
     (processRedeem sampleTakerRedeemStep sampleMatch true true .found 2000
        (some sampleEntry)
        false).decMakerOrder = false ∧
     (processRedeem sampleTakerRedeemStep sampleMatch true true .found 2000
        (some sampleEntry)
        false).actorOrderEntry =
       (swapSuccess (some sampleEntry)).1 ∧
     (processRedeem sampleTakerRedeemStep sampleMatch true true .found 2000
        (some sampleEntry)
        false).recordedCompleted =
       (swapSuccess (some sampleEntry)).2 ∧
     (processRedeem sampleTakerRedeemStep sampleMatch true true .found 2000
        (some sampleEntry)
        false).swapSuccessScored = true) :=
  C6_taker_redeem_completion sampleTakerRedeemStep sampleMatch 2000
    (some sampleEntry) false
    rfl rfl

/-- C7: for every match in a revocable status, `step` computes the acting
chain and expected amount purely from the status and the maker's side — the
step is on the base asset exactly when (`NewlyMatched` and maker sells) or
(`MakerSwapCast` and maker buys) or (`TakerSwapCast` and maker buys) or
(`MakerRedeemed` and maker sells) — and `checkVal` is the quantity on a base
step and `BaseToQuote(rate, quantity)` on a quote step. -/
theorem C7_step_asset_and_value (m : MatchRec) (u : Nat) (si : StepInfo) :
    step (some m) u = .ok si →
    ((si.isBaseAsset = true ↔
       ((m.status = .NewlyMatched ∧ m.makerSell = true) ∨
        (m.status = .MakerSwapCast ∧ m.makerSell = false) ∨
        (m.status = .TakerSwapCast ∧ m.makerSell = false) ∨
        (m.status = .MakerRedeemed ∧ m.makerSell = true))) ∧
     (si.isBaseAsset = true → si.checkVal = m.quantity) ∧
     (si.isBaseAsset = false → si.checkVal = BaseToQuote m.rate m.quantity)) := by
  intro h
  cases hst : m.status
  case MatchComplete =>
    simp only [step, hst] at h
    exact absurd h (by simp)
  case NewlyMatched =>
    simp only [step, hst] at h
    by_cases hu : m.makerUser = u
    · rw [if_neg (by simpa using hu)] at h
      simp only [Except.ok.injEq] at h
      subst h
      cases hsell : m.makerSell <;> simp [hst, hsell]
    · rw [if_pos (by simpa using hu)] at h
      exact absurd h (by simp)
  case TakerSwapCast =>
    simp only [step, hst] at h
    by_cases hu : m.makerUser = u
    · rw [if_neg (by simpa using hu)] at h
      simp only [Except.ok.injEq] at h
      subst h
      cases hsell : m.makerSell <;> simp [hst, hsell]
    · rw [if_pos (by simpa using hu)] at h
      exact absurd h (by simp)
  case MakerSwapCast =>
    simp only [step, hst] at h
    by_cases hu : m.takerUser = u
    · rw [if_neg (by simpa using hu)] at h
      simp only [Except.ok.injEq] at h
      subst h
      cases hsell : m.makerSell <;> simp [hst, hsell]
    · rw [if_pos (by simpa using hu)] at h
      exact absurd h (by simp)
  case MakerRedeemed =>
    simp only [step, hst] at h
    by_cases hu : m.takerUser = u
    · rw [if_neg (by simpa using hu)] at h
      simp only [Except.ok.injEq] at h
      subst h
      cases hsell : m.makerSell <;> simp [hst, hsell]
    · rw [if_pos (by simpa using hu)] at h
      exact absurd h (by simp)

/-- The step outcome of the maker's init on `sampleMatch`. -/
def sampleMakerInitStep : StepInfo :=
  { actorIsMaker := true, actorUser := 1, counterpartyUser := 2,
    isBaseAsset := true, step := .NewlyMatched, nextStep := .MakerSwapCast,
    actorSwapAsset := 42, counterpartySwapAsset := 0, checkVal := 5 }

/-- Witness for C7 at the maker's init step of `sampleMatch`. -/
theorem C7_step_asset_and_value_witness :
    ((sampleMakerInitStep.isBaseAsset = true ↔
       ((sampleMatch.status = .NewlyMatched ∧ sampleMatch.makerSell = true) ∨
        (sampleMatch.status = .MakerSwapCast ∧ sampleMatch.makerSell = false) ∨
        (sampleMatch.status = .TakerSwapCast ∧ sampleMatch.makerSell = false) ∨
        (sampleMatch.status = .MakerRedeemed ∧ sampleMatch.makerSell = true))) ∧
     (sampleMakerInitStep.isBaseAsset = true →
       sampleMakerInitStep.checkVal = sampleMatch.quantity) ∧
     (sampleMakerInitStep.isBaseAsset = false →
       sampleMakerInitStep.checkVal =
         BaseToQuote sampleMatch.rate sampleMatch.quantity)) :=
  C7_step_asset_and_value sampleMatch 1 sampleMakerInitStep rfl

/-- In every successful step resolution, the reported step is the match's
current status. -/
theorem step_ok_status (m : MatchRec) (u : Nat) (si : StepInfo) :
    step (some m) u = .ok si → si.step = m.status := by
  intro h
  cases hst : m.status
  case MatchComplete =>
    simp only [step, hst] at h
    exact absurd h (by simp)
  case NewlyMatched =>
    simp only [step, hst] at h
    by_cases hu : m.makerUser = u
    · rw [if_neg (by simpa using hu)] at h
      simp only [Except.ok.injEq] at h
      subst h
      simp [hst]
    · rw [if_pos (by simpa using hu)] at h
      exact absurd h (by simp)
  case TakerSwapCast =>
    simp only [step, hst] at h
    by_cases hu : m.makerUser = u
    · rw [if_neg (by simpa using hu)] at h
      simp only [Except.ok.injEq] at h
      subst h
      simp [hst]
    · rw [if_pos (by simpa using hu)] at h
      exact absurd h (by simp)
  case MakerSwapCast =>
    simp only [step, hst] at h
    by_cases hu : m.takerUser = u
    · rw [if_neg (by simpa using hu)] at h
      simp only [Except.ok.injEq] at h
      subst h
      simp [hst]
    · rw [if_pos (by simpa using hu)] at h
      exact absurd h (by simp)
  case MakerRedeemed =>
    simp only [step, hst] at h
    by_cases hu : m.takerUser = u
    · rw [if_neg (by simpa using hu)] at h
      simp only [Except.ok.injEq] at h
      subst h
      simp [hst]
    · rw [if_pos (by simpa using hu)] at h
      exact absurd h (by simp)

/-- A concrete match in `MakerSwapCast` whose maker swap-confirmed time is
still the zero time (taker init arriving before the confirmation). -/
def prematureInitMatch : MatchRec :=
  { sampleMatch with
    status := MatchStatus.MakerSwapCast
    makerSwapConfirmed := 0 }

/-- C8 counterexample: a valid taker init accepted while the maker's
swap-confirmed time is still the zero time gets a waiter expiry of
`now + txWaitExpiration` — not `min(now + txWaitExpiration, lastEvent +
broadcastTimeout)`, which would be in the distant past. -/
theorem C8_counterexample :
    handleInit (some prematureInitMatch) 2 okEnv 600000 120000 300000 =
      Except.ok 720000 ∧
    prematureInitMatch.makerSwapConfirmed = 0 ∧
    ¬ (720000 : Int) = min (600000 + 120000) (0 + 300000) := by
  refine ⟨rfl, rfl, by decide⟩

/-- C8 amended: for every init accepted by `handleInit`, the registered coin
waiter's expiry equals `min(now + txWaitExpiration, lastEvent +
broadcastTimeout)` whenever the last event time — the match's first-seen time
in `NewlyMatched`, the maker's swap-confirmed time in `MakerSwapCast` — is
non-zero; when that time is the zero time (a premature init) only a warning
is logged and the expiry is `now + txWaitExpiration`. -/
theorem C8_handleInit_waiter_expiry (m : MatchRec) (u : Nat) (env : HandlerEnv)
    (now txw bT t : Int) :
    handleInit (some m) u env now txw bT = .ok t →
    (((if m.status = .MakerSwapCast then m.makerSwapConfirmed else m.time) ≠ 0 →
       t = min (now + txw)
         ((if m.status = .MakerSwapCast then m.makerSwapConfirmed else m.time) + bT)) ∧
     ((if m.status = .MakerSwapCast then m.makerSwapConfirmed else m.time) = 0 →
       t = now + txw)) := by
  intro h
  unfold handleInit at h
  split at h
  · exact absurd h (by simp)
  split at h
  · exact absurd h (by simp)
  split at h
  · exact absurd h (by simp)
  split at h
  · exact absurd h (by simp)
  cases hstep : step (some m) u with
  | error e =>
    rw [hstep] at h
    simp only [] at h
    exact absurd h (by simp)
  | ok si =>
    have hss : si.step = m.status := step_ok_status m u si hstep
    rw [hstep] at h
    simp only [] at h
    cases hst : m.status
    case TakerSwapCast =>
      rw [hst] at hss
      rw [hss] at h
      simp only [] at h
      exact absurd h (by simp)
    case MakerRedeemed =>
      rw [hst] at hss
      rw [hss] at h
      simp only [] at h
      exact absurd h (by simp)
    case MatchComplete =>
      rw [hst] at hss
      rw [hss] at h
      simp only [] at h
      exact absurd h (by simp)
    case NewlyMatched =>
      rw [hst] at hss
      rw [hss] at h
      simp only [] at h
      rw [if_neg (by decide : ¬ (MatchStatus.NewlyMatched = MatchStatus.MakerSwapCast))] at h
      rw [if_neg (by decide : ¬ (MatchStatus.NewlyMatched = MatchStatus.MakerSwapCast))]
      split at h
      · exact absurd h (by simp)
      split at h
      · exact absurd h (by simp)
      simp only [Except.ok.injEq] at h
      subst h
      refine ⟨fun h0 => ?_, fun h0 => ?_⟩
      · rw [if_neg h0]
        rcases lt_or_le (m.time + bT) (now + txw) with hlt | hle
        · rw [if_pos hlt]
          exact (min_eq_right (le_of_lt hlt)).symm
        · rw [if_neg (not_lt.mpr hle)]
          exact (min_eq_left hle).symm
      · rw [if_pos h0]
    case MakerSwapCast =>
      rw [hst] at hss
      rw [hss] at h
      simp only [if_true] at h
      rw [if_pos (rfl : MatchStatus.MakerSwapCast = MatchStatus.MakerSwapCast)]
      split at h
      · exact absurd h (by simp)
      split at h
      · exact absurd h (by simp)
      simp only [Except.ok.injEq] at h
      subst h
      refine ⟨fun h0 => ?_, fun h0 => ?_⟩
      · rw [if_neg h0]
        rcases lt_or_le (m.makerSwapConfirmed + bT) (now + txw) with hlt | hle
        · rw [if_pos hlt]
          exact (min_eq_right (le_of_lt hlt)).symm
        · rw [if_neg (not_lt.mpr hle)]
          exact (min_eq_left hle).symm
      · rw [if_pos h0]

/-- Witness for C8 at a maker init with a non-zero match first-seen time. -/
theorem C8_handleInit_waiter_expiry_witness :
    (301000 : Int) = min (600000 + 120000) (1000 + 300000) :=
  (C8_handleInit_waiter_expiry sampleMatch 1 okEnv 600000 120000 300000 301000
    rfl).1 (by decide)

/-- In every successful construction, the final `txWaitExpiration` is the
initial value clamped to the broadcast timeout. -/
theorem NewSwapper_ok_txWaitExpiration (cfg : SwapConfig) (txw0 : Int) :
    (NewSwapper cfg txw0).result.isOk = true →
    (NewSwapper cfg txw0).txWaitExpiration =
      if txw0 > cfg.broadcastTimeout then cfg.broadcastTimeout else txw0 := by
  unfold NewSwapper
  split
  · intro h
    simp [Except.isOk, Except.toBool] at h
  split
  · intro h
    simp [Except.isOk, Except.toBool] at h
  split
  · intro h
    simp [Except.isOk, Except.toBool] at h
  rcases hl : loadStatePhase cfg with ⟨res, effs⟩
  cases res with
  | error e =>
    intro _
    rfl
  | ok loaded =>
    intro _
    simp only []
    split
    · rfl
    · rfl

/-- C9: after a successful `NewSwapper(cfg)`, `txWaitExpiration` does not
exceed `cfg.BroadcastTimeout` — if the initial value is greater than the
configured broadcast timeout it is reduced to exactly that timeout, and
otherwise it is unchanged. -/
theorem C9_txWaitExpiration_clamped (cfg : SwapConfig) (txw0 : Int) :
    (NewSwapper cfg txw0).result.isOk = true →
    ((NewSwapper cfg txw0).txWaitExpiration ≤ cfg.broadcastTimeout ∧
     (txw0 > cfg.broadcastTimeout →
       (NewSwapper cfg txw0).txWaitExpiration = cfg.broadcastTimeout) ∧
     (txw0 ≤ cfg.broadcastTimeout →
       (NewSwapper cfg txw0).txWaitExpiration = txw0)) := by
  intro h
  have ht := NewSwapper_ok_txWaitExpiration cfg txw0 h
  rw [ht]
  by_cases hgt : txw0 > cfg.broadcastTimeout
  · rw [if_pos hgt]
    exact ⟨le_rfl, fun _ => rfl, fun hle => absurd hgt (not_lt.mpr hle)⟩
  · rw [if_neg hgt]
    exact ⟨not_lt.mp hgt, fun hg => absurd hg hgt, fun _ => rfl⟩

/-- A configuration whose directory checks pass, with one valid asset and no
saved state to load. -/
def okCfg : SwapConfig :=
  { dataDirExists := true, dataDirIsDir := true,
    assets := [{ assetID := 42, symbol := "dcr", maxFeeRate := 10 }],
    broadcastTimeout := 300000, lockTimeTaker := 1000, lockTimeMaker := 2000,
    ignoreState := true, statePathGiven := false, statePathLoadOk := true,
    latestDirReadOk := true, latestFileFound := false, getHashOk := true,
    dbHashNonempty := false, fileHashOk := true, hashesMatch := true,
    loadLatestOk := true, restoreOk := true }

/-- Witness for C9: a successful construction with an oversized initial
`txWaitExpiration` clamps it to the broadcast timeout. -/
theorem C9_txWaitExpiration_clamped_witness :
    (NewSwapper okCfg 600000).txWaitExpiration = okCfg.broadcastTimeout :=
  (C9_txWaitExpiration_clamped okCfg 600000 rfl).2.1 (by decide)

/-- C10: whenever some configured asset has `MaxFeeRate` zero, `NewSwapper`
returns an error and no Swapper is constructed — no state file is loaded or
restored and no routes are registered. -/
theorem C10_zero_maxFeeRate_rejected (cfg : SwapConfig) (txw0 : Int) :
    (∃ a ∈ cfg.assets, a.maxFeeRate = 0) →
    ((NewSwapper cfg txw0).result.isOk = false ∧
     (NewSwapper cfg txw0).effects = []) := by
  intro h
  have hany : (cfg.assets.any fun a => a.maxFeeRate = 0) = true := by
    rcases h with ⟨a, ha, h0⟩
    exact List.any_eq_true.mpr ⟨a, ha, by simp [h0]⟩
  unfold NewSwapper
  split
  · exact ⟨rfl, rfl⟩
  split
  · exact ⟨rfl, rfl⟩
  simp [hany, Except.isOk, Except.toBool]

/-- A configuration containing an asset whose max fee rate is zero. -/
def zeroFeeCfg : SwapConfig :=
  { okCfg with assets := [{ assetID := 42, symbol := "dcr", maxFeeRate := 0 }] }

/-- Witness for C10 at a concrete configuration with a zero-fee-rate asset. -/
theorem C10_zero_maxFeeRate_rejected_witness :
    (NewSwapper zeroFeeCfg 600000).result.isOk = false ∧
    (NewSwapper zeroFeeCfg 600000).effects = [] :=
  C10_zero_maxFeeRate_rejected zeroFeeCfg 600000
    ⟨{ assetID := 42, symbol := "dcr", maxFeeRate := 0 }, by decide, rfl⟩

end Swap
